import Mathlib

/-!
Verification development for the Aspire CRM sync integration
(`crystal_clean/integrations/aspire/{client,transform,sync}.py`).

The Python modules are shallowly embedded: pure helpers become Lean
functions, external effects (HTTP fetches, document persistence) become
explicit environment inputs, and the orchestration becomes explicit state
passing.  Machine-level concerns (floats, wall-clock time) are modelled
with abstract `Nat` timestamps and `Int` payload numbers, which are only
copied, never computed with, by the embedded code.
-/

set_option maxHeartbeats 1600000
set_option maxRecDepth 8192

/- ===================== Python-style helpers ===================== -/

/-- Python truthiness test for an optional string: `None` and `""` are falsy. -/
def pyFalsyS : Option String → Bool
  | none => true
  | some s => s == ""

/-- Python `a or b` on optional integer IDs (`None` and `0` are falsy),
as in `opp.get("BillingCompanyID") or opp.get("CompanyID")`. -/
def pyOrN : Option Nat → Option Nat → Option Nat
  | some a, b => if a = 0 then b else some a
  | none, b => b

/-- Python `a or b` on optional numbers, as in
`aspire_ticket.get("EarnedRevenue") or aspire_ticket.get("ActualRevenue")`. -/
def pyOrI : Option Int → Option Int → Option Int
  | some a, b => if a = 0 then b else some a
  | none, b => b

/-- Whether `needle` occurs at the start of `hay` (character lists). -/
def startsWithCL : List Char → List Char → Bool
  | [], _ => true
  | _ :: _, [] => false
  | a :: as, b :: bs => a == b && startsWithCL as bs

/-- Whether `needle` occurs as a contiguous substring of the character list. -/
def hasSubstr (needle : List Char) : List Char → Bool
  | [] => needle.isEmpty
  | c :: rest => startsWithCL needle (c :: rest) || hasSubstr needle rest

/-- Python `needle in hay` substring test on strings. -/
def containsStr (needle hay : String) : Bool :=
  hasSubstr needle.toList hay.toList

/-- Python `\s` (ASCII whitespace, as used by `str.strip` on phone data). -/
def isPySpace (c : Char) : Bool :=
  c == ' ' || c == '\t' || c == '\n' || c == '\r' || c == '\x0b' || c == '\x0c'

/-- Remove the maximal run of whitespace at the end of a character list. -/
def dropTrailing (l : List Char) : List Char :=
  match l with
  | [] => []
  | c :: rest =>
    let r := dropTrailing rest
    if r.isEmpty then (if isPySpace c then [] else [c]) else c :: r

/-- Python `str.strip()` on a character list. -/
def pyStrip (l : List Char) : List Char :=
  dropTrailing (l.dropWhile isPySpace)

/-- Python `str.strip()` on strings. -/
def pyStripS (s : String) : String := String.mk (pyStrip s.toList)

/- ===================== transform.py: clean_phone ===================== -/

/-- Match of the regex alternative `\s*[xX]` at the head of the list. -/
def wsThenX : List Char → Bool
  | [] => false
  | c :: rest => c == 'x' || c == 'X' || (isPySpace c && wsThenX rest)

/-- After at least one whitespace: more whitespace then an ASCII letter. -/
def wsAlphaTail : List Char → Bool
  | [] => false
  | c :: rest => c.isAlpha || (isPySpace c && wsAlphaTail rest)

/-- Match of the regex alternative `\s+[a-zA-Z]` at the head of the list. -/
def wsThenAlpha : List Char → Bool
  | [] => false
  | c :: rest => isPySpace c && wsAlphaTail rest

/-- Match of the `clean_phone` split pattern
`\s*[xX]|ext|EXT|\s+[a-zA-Z]` at the head of the list. -/
def extMarkerAt (l : List Char) : Bool :=
  wsThenX l || startsWithCL ['e', 'x', 't'] l || startsWithCL ['E', 'X', 'T'] l ||
    wsThenAlpha l

/-- Text before the first (leftmost) match of the extension-marker pattern,
i.e. `re.split(pattern, s)[0]`. -/
def beforeExtMarker : List Char → List Char
  | [] => []
  | c :: rest => if extMarkerAt (c :: rest) then [] else c :: beforeExtMarker rest

/-- Characters kept by the substitution removing all but `\d+\-() `. -/
def isPhoneChar (c : Char) : Bool :=
  c.isDigit || c == '+' || c == '-' || c == '(' || c == ')' || c == ' '

/-- Number of digit characters in a character list. -/
def digitCount (l : List Char) : Nat := (l.filter Char.isDigit).length

/-- Embedding of `transform.clean_phone`: strip extension suffixes and
invalid characters, require at least 7 digits. -/
def clean_phone (s : String) : Option String :=
  if s == "" then none
  else
    let phone := pyStrip (beforeExtMarker s.toList)
    let cleaned := phone.filter isPhoneChar
    if 7 ≤ digitCount cleaned then some (String.mk (pyStrip cleaned)) else none

/-- `clean_phone` applied to a possibly-null field (`clean_phone(None)` is
`None` via the falsy early return). -/
def cleanPhoneOpt (o : Option String) : Option String := o.bind clean_phone

/- ===================== transform.py: date parsing ===================== -/

/-- A Python `datetime.date` value. -/
structure PyDate where
  year : Nat
  month : Nat
  day : Nat
deriving DecidableEq

/-- A Python `datetime.datetime` value; `tzOffsetMinutes = none` means naive. -/
structure PyDatetime where
  year : Nat
  month : Nat
  day : Nat
  hour : Nat
  minute : Nat
  second : Nat
  microsecond : Nat
  tzOffsetMinutes : Option Int
deriving DecidableEq

/-- Python `datetime.date()` projection. -/
def PyDatetime.toDate (dt : PyDatetime) : PyDate := ⟨dt.year, dt.month, dt.day⟩

/-- Value of a decimal digit character. -/
def dgt (c : Char) : Option Nat := if c.isDigit then some (c.toNat - 48) else none

/-- Parse exactly two decimal digits. -/
def parse2 : List Char → Option (Nat × List Char)
  | a :: b :: rest =>
    match dgt a, dgt b with
    | some x, some y => some (10 * x + y, rest)
    | _, _ => none
  | _ => none

/-- Parse exactly four decimal digits. -/
def parse4 : List Char → Option (Nat × List Char)
  | a :: b :: c :: d0 :: rest =>
    match dgt a, dgt b, dgt c, dgt d0 with
    | some x, some y, some z, some w => some (1000 * x + 100 * y + 10 * z + w, rest)
    | _, _, _, _ => none
  | _ => none

/-- Consume one expected character. -/
def expectChar (c : Char) : List Char → Option (List Char)
  | x :: rest => if x == c then some rest else none
  | [] => none

/-- Gregorian leap-year rule. -/
def isLeap (y : Nat) : Bool := (y % 4 == 0 && y % 100 != 0) || y % 400 == 0

/-- Days in a month, as validated by the Python `datetime` constructor. -/
def daysInMonth (y m : Nat) : Nat :=
  if m = 2 then (if isLeap y then 29 else 28)
  else if m = 4 || m = 6 || m = 9 || m = 11 then 30
  else 31

/-- Take a maximal run of digits. -/
def takeDigits : List Char → List Nat × List Char
  | [] => ([], [])
  | c :: rest =>
    match dgt c with
    | some v =>
      let (ds, r) := takeDigits rest
      (v :: ds, r)
    | none => ([], c :: rest)

/-- Numeric value of a digit run. -/
def digitsVal (ds : List Nat) : Nat := ds.foldl (fun a d0 => 10 * a + d0) 0

/-- Microseconds from a 1..6 digit fractional-second run. -/
def scaleMicro (ds : List Nat) : Option Nat :=
  if ds.length = 0 || 6 < ds.length then none
  else some (digitsVal ds * 10 ^ (6 - ds.length))

/-- Parse the time-of-day part `HH[:MM[:SS[.ffffff]]]`. -/
def parseTimeCore (l : List Char) : Option (Nat × Nat × Nat × Nat × List Char) := do
  let (h, r1) ← parse2 l
  match expectChar ':' r1 with
  | none => some (h, 0, 0, 0, r1)
  | some r2 => do
    let (mi, r3) ← parse2 r2
    match expectChar ':' r3 with
    | none => some (h, mi, 0, 0, r3)
    | some r4 => do
      let (se, r5) ← parse2 r4
      match r5 with
      | '.' :: r6 => do
        let (ds, r7) := takeDigits r6
        let us ← scaleMicro ds
        some (h, mi, se, us, r7)
      | ',' :: r6 => do
        let (ds, r7) := takeDigits r6
        let us ← scaleMicro ds
        some (h, mi, se, us, r7)
      | _ => some (h, mi, se, 0, r5)

/-- Parse an optional UTC offset `+HH:MM` or `-HH:MM`. -/
def parseOffset : List Char → Option (Option Int × List Char)
  | '+' :: r => do
    let (oh, r1) ← parse2 r
    let r2 ← expectChar ':' r1
    let (om, r3) ← parse2 r2
    if oh < 24 && om < 60 then some (some ((oh * 60 + om : Nat) : Int), r3) else none
  | '-' :: r => do
    let (oh, r1) ← parse2 r
    let r2 ← expectChar ':' r1
    let (om, r3) ← parse2 r2
    if oh < 24 && om < 60 then some (some (-((oh * 60 + om : Nat) : Int)), r3) else none
  | l => some (none, l)

/-- Modelled from the Python standard library: `datetime.fromisoformat` on the
common ISO-8601 subset `YYYY-MM-DD[{T,space}HH[:MM[:SS[.ffffff]]][±HH:MM]]`,
with the field-range validation of the `datetime` constructor.  Inputs outside
this subset are rejected (`ValueError`, i.e. `none`). -/
def fromisoformat (s : String) : Option PyDatetime := do
  let cs := s.toList
  let (y, r1) ← parse4 cs
  let r2 ← expectChar '-' r1
  let (mo, r3) ← parse2 r2
  let r4 ← expectChar '-' r3
  let (dy, r5) ← parse2 r4
  let (h, mi, se, us, tz, rest) ←
    (match r5 with
    | [] => some (0, 0, 0, 0, (none : Option Int), ([] : List Char))
    | sep :: r6 =>
      if sep == 'T' || sep == ' ' then do
        let (h, mi, se, us, r7) ← parseTimeCore r6
        let (tz, r8) ← parseOffset r7
        some (h, mi, se, us, tz, r8)
      else none)
  if rest.isEmpty && 1 ≤ y && y ≤ 9999 && 1 ≤ mo && mo ≤ 12 && 1 ≤ dy &&
      dy ≤ daysInMonth y mo && h ≤ 23 && mi ≤ 59 && se ≤ 59 then
    some ⟨y, mo, dy, h, mi, se, us, tz⟩
  else none

/-- Python `s.replace("Z", "+00:00")` (every occurrence). -/
def replaceZ (s : String) : String :=
  String.mk (s.toList.flatMap (fun c => if c == 'Z' then ['+', '0', '0', ':', '0', '0'] else [c]))

/-- A JSON-decoded Python value as seen by the parsing helpers: a string,
`None`, or some other (truthy, non-string) value such as a number or list,
on which `.replace` raises `AttributeError`. -/
inductive PyVal where
  | vstr (s : String)
  | vnone
  | vother
deriving DecidableEq

/-- Embedding of `transform.parse_date`: falsy input returns `None`; a
non-string raises `AttributeError`, which is caught; a string is parsed and
projected to a date, with `ValueError` caught to `None`. -/
def parse_date : PyVal → Option PyDate
  | .vnone => none
  | .vother => none
  | .vstr s =>
    if s == "" then none else (fromisoformat (replaceZ s)).map PyDatetime.toDate

/-- Embedding of `transform.parse_datetime`: as `parse_date`, but returning the
datetime with `tzinfo=None, microsecond=0` (`dt.replace(...)`). -/
def parse_datetime : PyVal → Option PyDatetime
  | .vnone => none
  | .vother => none
  | .vstr s =>
    if s == "" then none
    else (fromisoformat (replaceZ s)).map
      (fun dt => { dt with tzOffsetMinutes := none, microsecond := 0 })

/-- View an optional JSON string field as the Python value handed to the
parsing helpers (`null` becomes `None`). -/
def pv : Option String → PyVal
  | some s => .vstr s
  | none => .vnone

/- ===================== Remote (Aspire API) records ===================== -/

/-- An Aspire `Companies` record (fields read by the integration; `none`
models an absent or `null` JSON field). -/
structure AspireCompany where
  CompanyID : Option Nat
  CompanyName : Option String
  Active : Option Bool
deriving DecidableEq

/-- An Aspire `Contacts` record. -/
structure AspireContact where
  ContactID : Option Nat
  CompanyID : Option Nat
  FirstName : Option String
  LastName : Option String
  Email : Option String
  MobilePhone : Option String
  OfficePhone : Option String
  Active : Option Bool
deriving DecidableEq

/-- An Aspire `Properties` record. -/
structure AspireProperty where
  PropertyID : Option Nat
  CompanyID : Option Nat
  PropertyStatusName : Option String
  PropertyName : Option String
  PropertyAddressCity : Option String
  IndustryName : Option String
  Budget : Option Int
  PropertyAddressLine1 : Option String
  PropertyAddressStateProvinceCode : Option String
  PropertyAddressZipCode : Option String
  GEOLocationLatitude : Option Int
  GEOLocationLongitude : Option Int
  AccountOwnerContactName : Option String
deriving DecidableEq

/-- An Aspire `Opportunities` record (also used for contract records). -/
structure AspireOpportunity where
  OpportunityID : Option Nat
  BillingCompanyID : Option Nat
  CompanyID : Option Nat
  PropertyID : Option Nat
  OpportunityStatusName : Option String
  RenewalDate : Option String
  WonDate : Option String
  ModifiedDate : Option String
  EstimatedDollars : Option Int
  EstimatedGrossMarginDollars : Option Int
  SalesRepContactName : Option String
  BranchName : Option String
  DivisionName : Option String
  OpportunityType : Option String
deriving DecidableEq

/-- An Aspire `WorkTickets` record. -/
structure AspireWorkTicket where
  WorkTicketID : Option Nat
  OpportunityServiceID : Option Nat
  PropertyID : Option Nat
  WorkTicketNumber : Option String
  WorkTicketStatusName : Option String
  CrewLeaderName : Option String
  ScheduledStartDate : Option String
  CompletedDate : Option String
  HoursEstimated : Option Int
  HoursActual : Option Int
  ActualLaborCost : Option Int
  ActualMaterialCost : Option Int
  ActualEquipmentCost : Option Int
  EarnedRevenue : Option Int
  ActualRevenue : Option Int
deriving DecidableEq

/- ===================== Local (Frappe) documents ===================== -/

/-- A local `Customer` document. -/
structure CustomerDoc where
  name : String
  customer_name : Option String
  customer_type : String
  disabled : Bool
  custom_aspire_company_id : Option Nat
  custom_last_aspire_sync : Nat
deriving DecidableEq

/-- A local `Service Property` document. -/
structure ServicePropertyDoc where
  name : String
  property_name : String
  customer : Option String
  property_status_name : String
  industry_name : Option String
  budget : Option Int
  property_address_line1 : Option String
  property_address_city : Option String
  property_address_state_province_code : Option String
  property_address_zip_code : Option String
  geo_location_latitude : Option Int
  geo_location_longitude : Option Int
  account_owner_contact_name : Option String
  aspire_property_id : Option Nat
  last_aspire_sync : Nat
deriving DecidableEq

/-- A child-table row of a Contact email. -/
structure EmailRow where
  email_id : String
  is_primary : Nat
deriving DecidableEq

/-- A child-table row of a Contact phone number. -/
structure PhoneRow where
  phone : String
  is_primary_mobile_no : Nat
  is_primary_phone : Nat
deriving DecidableEq

/-- A child-table row of a Contact dynamic link. -/
structure LinkRow where
  link_doctype : String
  link_name : String
deriving DecidableEq

/-- A local `Contact` document, with its child tables. -/
structure ContactDoc where
  name : String
  first_name : String
  last_name : String
  status : String
  custom_aspire_contact_id : Option Nat
  custom_last_aspire_sync : Nat
  email_ids : List EmailRow
  phone_nos : List PhoneRow
  links : List LinkRow
deriving DecidableEq

/-- A local `Opportunity` document. -/
structure OpportunityDoc where
  name : String
  opportunity_from : String
  party_name : Option String
  status : String
  custom_aspire_opportunity_id : Option Nat
  custom_service_property : Option String
  custom_renewal_date : Option PyDate
  custom_estimated_dollars : Option Int
  custom_estimated_gross_margin : Option Int
  custom_sales_rep : Option String
  custom_branch : Option String
  custom_division : Option String
  custom_opportunity_type : Option String
  custom_won_date : Option PyDate
  custom_last_aspire_sync : Nat
  custom_aspire_modified_date : Option PyDatetime
deriving DecidableEq

/-- A local `Work Ticket` document. -/
structure WorkTicketDoc where
  name : String
  work_ticket_number : Option String
  work_ticket_status_name : String
  service_property : Option String
  scheduled_start_date : Option PyDate
  complete_date : Option PyDate
  hours_est : Option Int
  hours_act : Option Int
  labor_cost_act : Option Int
  material_cost_act : Option Int
  equipment_cost_act : Option Int
  earned_revenue : Option Int
  crew_leader_name : Option String
  aspire_work_ticket_id : Option Nat
  aspire_opportunity_service_id : Option Nat
  last_aspire_sync : Nat
deriving DecidableEq

/-- A local `Aspire Company` document (clean-slate doctype). -/
structure AspireCompanyDoc where
  name : String
  company_name : Option String
  aspire_company_id : Option Nat
  active : Nat
  last_aspire_sync : Nat
deriving DecidableEq

/-- A local `Aspire Contract` document (clean-slate doctype). -/
structure AspireContractDoc where
  name : String
  company : Option String
  property : Option String
  contract_status : String
  renewal_date : Option PyDate
  sales_rep : Option String
  estimated_value : Option Int
  gross_margin : Option Int
  branch : Option String
  division : Option String
  won_date : Option PyDate
  aspire_modified_date : Option PyDatetime
  aspire_opportunity_id : Option Nat
  last_aspire_sync : Nat
deriving DecidableEq

/- ===================== transform.py: record transforms ===================== -/

/-- Embedding of `transform_company_to_customer`.  `now` is the value of
`datetime.now()`; the `name` is assigned later by insertion. -/
def transform_company_to_customer (now : Nat) (c : AspireCompany) : CustomerDoc :=
  { name := ""
    customer_name := c.CompanyName
    customer_type := "Company"
    disabled := !(c.Active.getD true)
    custom_aspire_company_id := c.CompanyID
    custom_last_aspire_sync := now }

/-- The dictionary built by `transform_contact`; the four scalar keys are
always present, the child-table keys only when non-empty (`none` = absent). -/
structure ContactData where
  first_name : String
  last_name : String
  status : String
  custom_aspire_contact_id : Option Nat
  custom_last_aspire_sync : Nat
  email_ids : Option (List EmailRow)
  phone_nos : Option (List PhoneRow)
  links : Option (List LinkRow)
deriving DecidableEq

/-- Embedding of `transform_contact`. -/
def transform_contact (now : Nat) (c : AspireContact) (customer_name : Option String) :
    ContactData :=
  let email_ids : Option (List EmailRow) :=
    match c.Email with
    | some e => if e == "" then none else some [⟨e, 1⟩]
    | none => none
  let mobile := cleanPhoneOpt c.MobilePhone
  let office := cleanPhoneOpt c.OfficePhone
  let phone_nos : List PhoneRow :=
    (match mobile with
     | some m => [⟨m, 1, 0⟩]
     | none => []) ++
    (match office with
     | some o => [⟨o, 0, 1⟩]
     | none => [])
  { first_name := c.FirstName.getD ""
    last_name := c.LastName.getD ""
    status := if c.Active.getD true then "Open" else "Passive"
    custom_aspire_contact_id := c.ContactID
    custom_last_aspire_sync := now
    email_ids := email_ids
    phone_nos := if phone_nos.isEmpty then none else some phone_nos
    links :=
      match customer_name with
      | some n => if n == "" then none else some [⟨"Customer", n⟩]
      | none => none }

/-- Embedding of `transform_property_to_service_property`. -/
def transform_property_to_service_property (now : Nat) (p : AspireProperty)
    (customer_name : Option String) : ServicePropertyDoc :=
  let status :=
    match p.PropertyStatusName with
    | some "Customer" => "Customer"
    | some "Prospect" => "Prospect"
    | _ => "Inactive"
  let base_name := p.PropertyName.getD ""
  let property_name :=
    match p.PropertyAddressCity with
    | some city => if city != "" && pyStripS city != "" then base_name ++ " - " ++ pyStripS city else base_name
    | none => base_name
  { name := ""
    property_name := property_name
    customer := customer_name
    property_status_name := status
    industry_name := p.IndustryName
    budget := p.Budget
    property_address_line1 := p.PropertyAddressLine1
    property_address_city := p.PropertyAddressCity
    property_address_state_province_code := p.PropertyAddressStateProvinceCode
    property_address_zip_code := p.PropertyAddressZipCode
    geo_location_latitude := p.GEOLocationLatitude
    geo_location_longitude := p.GEOLocationLongitude
    account_owner_contact_name := p.AccountOwnerContactName
    aspire_property_id := p.PropertyID
    last_aspire_sync := now }

/-- Embedding of `transform_opportunity` (status mapped by substring:
`"Won" in s`, then `"Lost" in s`, else Open). -/
def transform_opportunity (now : Nat) (o : AspireOpportunity)
    (customer_name service_property_name : Option String) : OpportunityDoc :=
  let status_name := o.OpportunityStatusName.getD ""
  let status :=
    if containsStr "Won" status_name then "Converted"
    else if containsStr "Lost" status_name then "Lost"
    else "Open"
  { name := ""
    opportunity_from := if pyFalsyS customer_name then "Lead" else "Customer"
    party_name := customer_name
    status := status
    custom_aspire_opportunity_id := o.OpportunityID
    custom_service_property := service_property_name
    custom_renewal_date := parse_date (pv o.RenewalDate)
    custom_estimated_dollars := o.EstimatedDollars
    custom_estimated_gross_margin := o.EstimatedGrossMarginDollars
    custom_sales_rep := o.SalesRepContactName
    custom_branch := o.BranchName
    custom_division := o.DivisionName
    custom_opportunity_type := o.OpportunityType
    custom_won_date := parse_date (pv o.WonDate)
    custom_last_aspire_sync := now
    custom_aspire_modified_date := parse_datetime (pv o.ModifiedDate) }

/-- Embedding of `transform_work_ticket`. -/
def transform_work_ticket (now : Nat) (t : AspireWorkTicket)
    (service_property_name : Option String) : WorkTicketDoc :=
  let status :=
    match t.WorkTicketStatusName with
    | some "Scheduled" => "Scheduled"
    | some "In Progress" => "In Progress"
    | some "Complete" => "Complete"
    | some "Cancelled" => "Cancelled"
    | _ => "Scheduled"
  { name := ""
    work_ticket_number := t.WorkTicketNumber
    work_ticket_status_name := status
    service_property := service_property_name
    scheduled_start_date := parse_date (pv t.ScheduledStartDate)
    complete_date := parse_date (pv t.CompletedDate)
    hours_est := t.HoursEstimated
    hours_act := t.HoursActual
    labor_cost_act := t.ActualLaborCost
    material_cost_act := t.ActualMaterialCost
    equipment_cost_act := t.ActualEquipmentCost
    earned_revenue := pyOrI t.EarnedRevenue t.ActualRevenue
    crew_leader_name := t.CrewLeaderName
    aspire_work_ticket_id := t.WorkTicketID
    aspire_opportunity_service_id := t.OpportunityServiceID
    last_aspire_sync := now }

/-- Embedding of `transform_to_aspire_company`. -/
def transform_to_aspire_company (now : Nat) (c : AspireCompany) : AspireCompanyDoc :=
  { name := ""
    company_name := c.CompanyName
    aspire_company_id := c.CompanyID
    active := if c.Active.getD true then 1 else 0
    last_aspire_sync := now }

/-- Embedding of `transform_to_aspire_contract` (contract status mapped by
substring: `"Won" in s`, then `"Lost" in s`, else Open). -/
def transform_to_aspire_contract (now : Nat) (o : AspireOpportunity)
    (company_name property_name : Option String) : AspireContractDoc :=
  let status_name := o.OpportunityStatusName.getD ""
  let contract_status :=
    if containsStr "Won" status_name then "Won"
    else if containsStr "Lost" status_name then "Lost"
    else "Open"
  { name := ""
    company := company_name
    property := property_name
    contract_status := contract_status
    renewal_date := parse_date (pv o.RenewalDate)
    sales_rep := o.SalesRepContactName
    estimated_value := o.EstimatedDollars
    gross_margin := o.EstimatedGrossMarginDollars
    branch := o.BranchName
    division := o.DivisionName
    won_date := parse_date (pv o.WonDate)
    aspire_modified_date := parse_datetime (pv o.ModifiedDate)
    aspire_opportunity_id := o.OpportunityID
    last_aspire_sync := now }

/- ===================== sync.py: stats, maps, entity loops ===================== -/

/-- Embedding of `SyncStats`. -/
structure SyncStats where
  pulled : Nat
  created : Nat
  updated : Nat
  errors : Nat
deriving DecidableEq

/-- The zero-initialised `SyncStats()`. -/
def SyncStats.init : SyncStats := ⟨0, 0, 0, 0⟩

/-- A structured per-record error entry, as appended to the errors list. -/
structure ErrEntry where
  entity : String
  id : Option Nat
  error : String
deriving DecidableEq

/-- The foreign-key map built from `Customer` documents: Python dict built by
`company_map[c.custom_aspire_company_id] = c.name` for truthy ids; lookup
returns the last insertion for a key. -/
def buildCompanyMap (customers : List CustomerDoc) (k : Nat) : Option String :=
  ((customers.filter
      (fun c => c.custom_aspire_company_id == some k && k != 0)).map (·.name)).getLast?

/-- The foreign-key map built from `Service Property` documents. -/
def buildPropertyMap (props : List ServicePropertyDoc) (k : Nat) : Option String :=
  ((props.filter
      (fun p => p.aspire_property_id == some k && k != 0)).map (·.name)).getLast?

/-- The foreign-key map built from `Aspire Company` documents. -/
def buildAspireCompanyMap (companies : List AspireCompanyDoc) (k : Nat) : Option String :=
  ((companies.filter
      (fun c => c.aspire_company_id == some k && k != 0)).map (·.name)).getLast?

/-- A fresh document name assigned on insert (the autonaming of the store,
abstracted as a function of the current table size). -/
def newDocName (doctype : String) (count : Nat) : String :=
  doctype ++ "-" ++ toString count

/-- One iteration of the `sync_companies` record loop.  `persist` models
per-record persistence exceptions raised by the document store (validation,
database errors): `some msg` means the save/insert of the record raised and the
`except` branch runs. -/
def sync_companies_step (now : Nat) (persist : AspireCompany → Option String)
    (acc : List CustomerDoc × SyncStats × List ErrEntry) (company : AspireCompany) :
    List CustomerDoc × SyncStats × List ErrEntry :=
  let (db, stats, errs) := acc
  match persist company with
  | some msg =>
    (db, { stats with errors := stats.errors + 1 },
      errs ++ [⟨"Company", company.CompanyID, msg⟩])
  | none =>
    let customer_data := transform_company_to_customer now company
    match db.find? (fun d => d.custom_aspire_company_id == company.CompanyID) with
    | some doc =>
      (db.map (fun d => if d.name = doc.name then { customer_data with name := d.name } else d),
        { stats with updated := stats.updated + 1 }, errs)
    | none =>
      (db ++ [{ customer_data with name := newDocName "CUST" db.length }],
        { stats with created := stats.created + 1 }, errs)

/-- Embedding of `sync_companies`: pull the fetched list, then upsert each
record by `custom_aspire_company_id`. -/
def sync_companies (now : Nat) (persist : AspireCompany → Option String)
    (db : List CustomerDoc) (stats : SyncStats) (companies : List AspireCompany) :
    List CustomerDoc × SyncStats × List ErrEntry :=
  companies.foldl (sync_companies_step now persist)
    (db, { stats with pulled := stats.pulled + companies.length }, [])

/-- One iteration of the `sync_properties` record loop. -/
def sync_properties_step (now : Nat) (persist : AspireProperty → Option String)
    (customers : List CustomerDoc)
    (acc : List ServicePropertyDoc × SyncStats × List ErrEntry) (prop : AspireProperty) :
    List ServicePropertyDoc × SyncStats × List ErrEntry :=
  let (db, stats, errs) := acc
  let customer_name := prop.CompanyID.bind (buildCompanyMap customers)
  match persist prop with
  | some msg =>
    (db, { stats with errors := stats.errors + 1 },
      errs ++ [⟨"Property", prop.PropertyID, msg⟩])
  | none =>
    let property_data := transform_property_to_service_property now prop customer_name
    match db.find? (fun d => d.aspire_property_id == prop.PropertyID) with
    | some doc =>
      (db.map (fun d => if d.name = doc.name then { property_data with name := d.name } else d),
        { stats with updated := stats.updated + 1 }, errs)
    | none =>
      (db ++ [{ property_data with name := newDocName "PROP" db.length }],
        { stats with created := stats.created + 1 }, errs)

/-- Embedding of `sync_properties` (the company map is built once from the
customers read at the start of the function). -/
def sync_properties (now : Nat) (persist : AspireProperty → Option String)
    (customers : List CustomerDoc) (db : List ServicePropertyDoc) (stats : SyncStats)
    (properties : List AspireProperty) :
    List ServicePropertyDoc × SyncStats × List ErrEntry :=
  properties.foldl (sync_properties_step now persist customers)
    (db, { stats with pulled := stats.pulled + properties.length }, [])

/-- Insertion of a new `Contact` document from a `transform_contact`
dictionary (absent child tables become empty tables). -/
def newContactDoc (name : String) (cd : ContactData) : ContactDoc :=
  { name := name
    first_name := cd.first_name
    last_name := cd.last_name
    status := cd.status
    custom_aspire_contact_id := cd.custom_aspire_contact_id
    custom_last_aspire_sync := cd.custom_last_aspire_sync
    email_ids := cd.email_ids.getD []
    phone_nos := cd.phone_nos.getD []
    links := cd.links.getD [] }

/-- The update path of `sync_contacts`: only the keys
`first_name`, `last_name`, `status`, `custom_last_aspire_sync` are copied
onto the existing document (child tables untouched). -/
def update_contact_fields (doc : ContactDoc) (cd : ContactData) : ContactDoc :=
  { doc with
    first_name := cd.first_name
    last_name := cd.last_name
    status := cd.status
    custom_last_aspire_sync := cd.custom_last_aspire_sync }

/-- One iteration of the `sync_contacts` record loop. -/
def sync_contacts_step (now : Nat) (persist : AspireContact → Option String)
    (customers : List CustomerDoc)
    (acc : List ContactDoc × SyncStats × List ErrEntry) (contact : AspireContact) :
    List ContactDoc × SyncStats × List ErrEntry :=
  let (db, stats, errs) := acc
  let customer_name := contact.CompanyID.bind (buildCompanyMap customers)
  match persist contact with
  | some msg =>
    (db, { stats with errors := stats.errors + 1 },
      errs ++ [⟨"Contact", contact.ContactID, msg⟩])
  | none =>
    let contact_data := transform_contact now contact customer_name
    match db.find? (fun d => d.custom_aspire_contact_id == contact.ContactID) with
    | some doc =>
      (db.map (fun d => if d.name = doc.name then update_contact_fields d contact_data else d),
        { stats with updated := stats.updated + 1 }, errs)
    | none =>
      (db ++ [newContactDoc (newDocName "CONT" db.length) contact_data],
        { stats with created := stats.created + 1 }, errs)

/-- Embedding of `sync_contacts`. -/
def sync_contacts (now : Nat) (persist : AspireContact → Option String)
    (customers : List CustomerDoc) (db : List ContactDoc) (stats : SyncStats)
    (contacts : List AspireContact) :
    List ContactDoc × SyncStats × List ErrEntry :=
  contacts.foldl (sync_contacts_step now persist customers)
    (db, { stats with pulled := stats.pulled + contacts.length }, [])

/-- One iteration of the `sync_opportunities` record loop.  A record whose
billing company (or company) does not resolve to a customer is skipped
before any store access (`if not customer_name: continue`). -/
def sync_opportunities_step (now : Nat) (persist : AspireOpportunity → Option String)
    (customers : List CustomerDoc) (props : List ServicePropertyDoc)
    (acc : List OpportunityDoc × SyncStats × List ErrEntry) (opp : AspireOpportunity) :
    List OpportunityDoc × SyncStats × List ErrEntry :=
  let (db, stats, errs) := acc
  let company_id := pyOrN opp.BillingCompanyID opp.CompanyID
  let customer_name := company_id.bind (buildCompanyMap customers)
  let property_name := opp.PropertyID.bind (buildPropertyMap props)
  if pyFalsyS customer_name then acc
  else
    match persist opp with
    | some msg =>
      (db, { stats with errors := stats.errors + 1 },
        errs ++ [⟨"Opportunity", opp.OpportunityID, msg⟩])
    | none =>
      let opp_data := transform_opportunity now opp customer_name property_name
      match db.find? (fun d => d.custom_aspire_opportunity_id == opp.OpportunityID) with
      | some doc =>
        (db.map (fun d => if d.name = doc.name then { opp_data with name := d.name } else d),
          { stats with updated := stats.updated + 1 }, errs)
      | none =>
        (db ++ [{ opp_data with name := newDocName "OPP" db.length }],
          { stats with created := stats.created + 1 }, errs)

/-- Embedding of `sync_opportunities`. -/
def sync_opportunities (now : Nat) (persist : AspireOpportunity → Option String)
    (customers : List CustomerDoc) (props : List ServicePropertyDoc)
    (db : List OpportunityDoc) (stats : SyncStats)
    (opportunities : List AspireOpportunity) :
    List OpportunityDoc × SyncStats × List ErrEntry :=
  opportunities.foldl (sync_opportunities_step now persist customers props)
    (db, { stats with pulled := stats.pulled + opportunities.length }, [])

/-- One iteration of the `sync_work_tickets` record loop. -/
def sync_work_tickets_step (now : Nat) (persist : AspireWorkTicket → Option String)
    (props : List ServicePropertyDoc)
    (acc : List WorkTicketDoc × SyncStats × List ErrEntry) (ticket : AspireWorkTicket) :
    List WorkTicketDoc × SyncStats × List ErrEntry :=
  let (db, stats, errs) := acc
  let property_name := ticket.PropertyID.bind (buildPropertyMap props)
  match persist ticket with
  | some msg =>
    (db, { stats with errors := stats.errors + 1 },
      errs ++ [⟨"WorkTicket", ticket.WorkTicketID, msg⟩])
  | none =>
    let ticket_data := transform_work_ticket now ticket property_name
    match db.find? (fun d => d.aspire_work_ticket_id == ticket.WorkTicketID) with
    | some doc =>
      (db.map (fun d => if d.name = doc.name then { ticket_data with name := d.name } else d),
        { stats with updated := stats.updated + 1 }, errs)
    | none =>
      (db ++ [{ ticket_data with name := newDocName "WT" db.length }],
        { stats with created := stats.created + 1 }, errs)

/-- Embedding of `sync_work_tickets`. -/
def sync_work_tickets (now : Nat) (persist : AspireWorkTicket → Option String)
    (props : List ServicePropertyDoc) (db : List WorkTicketDoc) (stats : SyncStats)
    (tickets : List AspireWorkTicket) :
    List WorkTicketDoc × SyncStats × List ErrEntry :=
  tickets.foldl (sync_work_tickets_step now persist props)
    (db, { stats with pulled := stats.pulled + tickets.length }, [])

/-- One iteration of the `sync_aspire_contracts` record loop.  As in
`sync_opportunities`, a record whose billing company (or company) does not
resolve is skipped (`if not company_name: continue`). -/
def sync_aspire_contracts_step (now : Nat) (persist : AspireOpportunity → Option String)
    (companies : List AspireCompanyDoc) (props : List ServicePropertyDoc)
    (acc : List AspireContractDoc × SyncStats × List ErrEntry) (contract : AspireOpportunity) :
    List AspireContractDoc × SyncStats × List ErrEntry :=
  let (db, stats, errs) := acc
  let company_id := pyOrN contract.BillingCompanyID contract.CompanyID
  let company_name := company_id.bind (buildAspireCompanyMap companies)
  let property_name := contract.PropertyID.bind (buildPropertyMap props)
  if pyFalsyS company_name then acc
  else
    match persist contract with
    | some msg =>
      (db, { stats with errors := stats.errors + 1 },
        errs ++ [⟨"Aspire Contract", contract.OpportunityID, msg⟩])
    | none =>
      let contract_data := transform_to_aspire_contract now contract company_name property_name
      match db.find? (fun d => d.aspire_opportunity_id == contract.OpportunityID) with
      | some doc =>
        (db.map (fun d => if d.name = doc.name then { contract_data with name := d.name } else d),
          { stats with updated := stats.updated + 1 }, errs)
      | none =>
        (db ++ [{ contract_data with name := newDocName "ACON" db.length }],
          { stats with created := stats.created + 1 }, errs)

/-- Embedding of `sync_aspire_contracts`. -/
def sync_aspire_contracts (now : Nat) (persist : AspireOpportunity → Option String)
    (companies : List AspireCompanyDoc) (props : List ServicePropertyDoc)
    (db : List AspireContractDoc) (stats : SyncStats)
    (contracts : List AspireOpportunity) :
    List AspireContractDoc × SyncStats × List ErrEntry :=
  contracts.foldl (sync_aspire_contracts_step now persist companies props)
    (db, { stats with pulled := stats.pulled + contracts.length }, [])

/- ===================== client.py: configuration and client ===================== -/

/-- The three `site_config.json` values read via `frappe.conf.get`
(`none` when the key is missing). -/
structure SiteConfig where
  aspire_api_base_url : Option String
  aspire_api_client_id : Option String
  aspire_api_key : Option String
deriving DecidableEq

/-- The typed API error `AspireAPIError` (status code and body omitted:
no claim inspects them). -/
structure AspireAPIError where
  message : String
deriving DecidableEq

/-- The constructed client state. -/
structure AspireClientState where
  base_url : String
  client_id : String
  api_key : String
  page_size : Nat
deriving DecidableEq

/-- Python `not all([base_url, client_id, api_key])`: any value missing or
empty is falsy. -/
def credsMissing (cfg : SiteConfig) : Bool :=
  pyFalsyS cfg.aspire_api_base_url || pyFalsyS cfg.aspire_api_client_id ||
    pyFalsyS cfg.aspire_api_key

/-- Embedding of `AspireClient.__init__`: reads the three configuration
values and raises `AspireAPIError` when any is absent, before any network
activity. -/
def AspireClient.init (cfg : SiteConfig) : Except AspireAPIError AspireClientState :=
  if credsMissing cfg then
    .error ⟨"Aspire API credentials not configured. Set aspire_api_base_url, aspire_api_client_id, and aspire_api_key in site_config.json"⟩
  else
    .ok ⟨cfg.aspire_api_base_url.getD "", cfg.aspire_api_client_id.getD "",
      cfg.aspire_api_key.getD "", 100⟩

/- ===================== client.py: pagination ===================== -/

/-- Embedding of the `_fetch_all_pages` loop against a remote collection
modelled as a ground-truth list: a request with parameters
`($top = 100, $skip)` answers the slice `(remote.drop skip).take 100`.
Returns the accumulated records, the `($top, $skip)` parameter pairs of the
requests issued in order, and the number of `time.sleep(0.1)` delays
executed (a delay runs only after a full page, i.e. between two
consecutive page fetches).  The first `Nat` argument is an iteration bound
standing in for `while True` (an embedding artifact); callers supply a
bound large enough that its exhaustion case is never reached. -/
def fetch_pages_iter (remote : List Nat) : Nat → Nat → List Nat × List (Nat × Nat) × Nat
  | 0, _skip => ([], [], 0)
  | fuel + 1, skip =>
    let data := (remote.drop skip).take 100
    if data.length = 0 then ([], [(100, skip)], 0)
    else if data.length < 100 then (data, [(100, skip)], 0)
    else
      let r := fetch_pages_iter remote fuel (skip + 100)
      (data ++ r.1, (100, skip) :: r.2.1, r.2.2 + 1)

/-- `_fetch_all_pages` starting from `$skip = 0`.  The `while True`
loop of the source always terminates because every full page advances `$skip` by the page
size through the fixed remote collection; the iteration bound
`remote.length / 100 + 1` supplied here always suffices (the exhausted-bound
case of `fetch_pages_iter` is unreachable). -/
def fetch_all_pages (remote : List Nat) : List Nat × List (Nat × Nat) × Nat :=
  fetch_pages_iter remote (remote.length / 100 + 1) 0

/- ===================== client.py: per-entity filter expressions ===================== -/

/-- Rendering of `modified_since.isoformat()` for an abstract timestamp. -/
def tsStr (t : Nat) : String := toString t

/-- Rendering of `cutoff_date.strftime(%Y-%m-%d)` for an abstract timestamp. -/
def ymdStr (t : Nat) : String := toString t

/-- `" and ".join(filters)`. -/
def joinAnd : List String → String
  | [] => ""
  | [f] => f
  | f :: rest => f ++ " and " ++ joinAnd rest

/-- The optional cutoff (`ge`) and modified-since (`gt`) clauses appended,
in source order, to the fixed filter list of an entity. -/
def optClauses (field : String) (modified_since cutoff : Option Nat) : List String :=
  (match cutoff with
   | some c => [field ++ " ge " ++ ymdStr c ++ "T00:00:00Z"]
   | none => []) ++
  (match modified_since with
   | some t => [field ++ " gt " ++ tsStr t ++ "Z"]
   | none => [])

/-- The `$filter` parameter built by `fetch_companies` (`none` = no filter). -/
def companies_filter (modified_since cutoff : Option Nat) : Option String :=
  let fs := optClauses "ModifiedDateTime" modified_since cutoff
  if fs.isEmpty then none else some (joinAnd fs)

/-- The `$filter` parameter built by `fetch_contacts`. -/
def contacts_filter (modified_since cutoff : Option Nat) : Option String :=
  some (joinAnd (["Email ne null and Active eq true"] ++
    optClauses "ModifiedDate" modified_since cutoff))

/-- The `$filter` parameter built by `fetch_properties`. -/
def properties_filter (modified_since cutoff : Option Nat) : Option String :=
  some (joinAnd (["Active eq true"] ++ optClauses "ModifiedDate" modified_since cutoff))

/-- The `$filter` parameter built by `fetch_opportunities`. -/
def opportunities_filter (modified_since cutoff : Option Nat) : Option String :=
  some (joinAnd (["OpportunityType eq \x27Contract\x27 and OpportunityStatusName eq \x277. Won\x27"] ++
    optClauses "ModifiedDate" modified_since cutoff))

/-- The `$filter` parameter built by `fetch_contracts`. -/
def contracts_filter (modified_since cutoff : Option Nat) : Option String :=
  some (joinAnd (["OpportunityType eq \x27Contract\x27",
    "OpportunityStatusName ne \x271. Draft\x27", "RenewalDate ne null"] ++
    optClauses "ModifiedDate" modified_since cutoff))

/-- The `$filter` parameter built by `fetch_work_tickets` (months_back
defaults to 6, i.e. 180 days before `now`, when no cutoff is given). -/
def work_tickets_filter (modified_since cutoff : Option Nat) (now : Nat) : Option String :=
  let schedule_cutoff := match cutoff with | some c => c | none => now - 180
  some (joinAnd (["ScheduledStartDate ge " ++ ymdStr schedule_cutoff] ++
    optClauses "LastModifiedDateTime" modified_since cutoff))

/- ===================== sync.py: sync log and orchestration ===================== -/

/-- A persisted `Aspire Sync Log` row as read back by `get_last_sync_date`. -/
structure SyncLogRow where
  status : String
  entity_type : String
  completed_at : Nat
deriving DecidableEq

/-- One step of `get_last_sync_date`: keep the maximum `completed_at` among
the logs matching the status/scope filter (selecting the maximum models the
query ordering by `completed_at desc` with `limit 1`). -/
def sync_log_fold_step (entity_type : String) (acc : Option Nat) (l : SyncLogRow) :
    Option Nat :=
  if l.status == "Success" && (entity_type == "All" || l.entity_type == entity_type) then
    some (match acc with
           | none => l.completed_at
           | some t => max t l.completed_at)
  else acc

/-- Embedding of `get_last_sync_date`: the completion timestamp of the most
recent log with status Success; `entity_type = "All"` applies no
entity-scope filter. -/
def get_last_sync_date (logs : List SyncLogRow) (entity_type : String) : Option Nat :=
  logs.foldl (sync_log_fold_step entity_type) none

/-- The whole local document store. -/
structure LocalDB where
  customers : List CustomerDoc
  serviceProperties : List ServicePropertyDoc
  contacts : List ContactDoc
  opportunities : List OpportunityDoc
  workTickets : List WorkTicketDoc
deriving DecidableEq

/-- The external world of one orchestration run: the current time, the
existing sync-log table, the data each entity fetch would return (or the
`AspireAPIError` the request would raise), and the per-record persistence
outcomes of the document store. -/
structure SyncEnv where
  now : Nat
  logs : List SyncLogRow
  companiesData : Except AspireAPIError (List AspireCompany)
  propertiesData : Except AspireAPIError (List AspireProperty)
  contactsData : Except AspireAPIError (List AspireContact)
  opportunitiesData : Except AspireAPIError (List AspireOpportunity)
  workTicketsData : Except AspireAPIError (List AspireWorkTicket)
  persistCompany : AspireCompany → Option String
  persistProperty : AspireProperty → Option String
  persistContact : AspireContact → Option String
  persistOpportunity : AspireOpportunity → Option String
  persistWorkTicket : AspireWorkTicket → Option String

/-- Whether an `Except`-modelled request raises. -/
def raises {ε α : Type} : Except ε α → Bool
  | .error _ => true
  | .ok _ => false

/-- Whether any of the five sequential entity fetches of a run would raise
(the first raising fetch aborts the run). -/
def anyFetchFails (env : SyncEnv) : Bool :=
  raises env.companiesData || raises env.propertiesData || raises env.contactsData ||
    raises env.opportunitiesData || raises env.workTicketsData

/-- State after the entity-sync sequence shared by `full_sync`,
`incremental_sync` and `resync_since`: the document store, the threaded
stats, the accumulated error entries, the `$filter` parameters of the
fetches attempted (in order), and the number of fetches attempted. -/
structure EntityRunState where
  db : LocalDB
  stats : SyncStats
  errors : List ErrEntry
  filters : List (Option String)
  fetches : Nat

/-- The entity-sync sequence of lines 512-525 (companies → properties →
contacts → opportunities → work tickets), shared verbatim by
`incremental_sync` and `resync_since` modulo the time bounds.  Each fetch
either raises (aborting with the state reached so far, second component
`some e`) or returns its records, which are then upserted. -/
def run_entity_syncs (env : SyncEnv) (modified_since cutoff : Option Nat)
    (db : LocalDB) (stats : SyncStats) : EntityRunState × Option AspireAPIError :=
  let f1 := companies_filter modified_since cutoff
  match env.companiesData with
  | .error e => (⟨db, stats, [], [f1], 1⟩, some e)
  | .ok companies =>
    let r1 := sync_companies env.now env.persistCompany db.customers stats companies
    let cdb := r1.1
    let db1 := { db with customers := cdb }
    let f2 := properties_filter modified_since cutoff
    match env.propertiesData with
    | .error e => (⟨db1, r1.2.1, r1.2.2, [f1, f2], 2⟩, some e)
    | .ok properties =>
      let r2 := sync_properties env.now env.persistProperty cdb db.serviceProperties r1.2.1 properties
      let pdb := r2.1
      let db2 := { db1 with serviceProperties := pdb }
      let f3 := contacts_filter modified_since cutoff
      match env.contactsData with
      | .error e => (⟨db2, r2.2.1, r1.2.2 ++ r2.2.2, [f1, f2, f3], 3⟩, some e)
      | .ok contacts =>
        let r3 := sync_contacts env.now env.persistContact cdb db.contacts r2.2.1 contacts
        let ctdb := r3.1
        let db3 := { db2 with contacts := ctdb }
        let f4 := opportunities_filter modified_since cutoff
        match env.opportunitiesData with
        | .error e =>
          (⟨db3, r3.2.1, r1.2.2 ++ r2.2.2 ++ r3.2.2, [f1, f2, f3, f4], 4⟩, some e)
        | .ok opportunities =>
          let r4 := sync_opportunities env.now env.persistOpportunity cdb pdb db.opportunities r3.2.1 opportunities
          let odb := r4.1
          let db4 := { db3 with opportunities := odb }
          let f5 := work_tickets_filter modified_since cutoff env.now
          match env.workTicketsData with
          | .error e =>
            (⟨db4, r4.2.1, r1.2.2 ++ r2.2.2 ++ r3.2.2 ++ r4.2.2, [f1, f2, f3, f4, f5], 5⟩,
              some e)
          | .ok tickets =>
            let r5 := sync_work_tickets env.now env.persistWorkTicket pdb db.workTickets r4.2.1 tickets
            (⟨⟨cdb, pdb, ctdb, odb, r5.1⟩, r5.2.1,
              r1.2.2 ++ r2.2.2 ++ r3.2.2 ++ r4.2.2 ++ r5.2.2, [f1, f2, f3, f4, f5], 5⟩, none)

/-- The outcome of one orchestration entry point: the sync-log statuses
written in order (`"Running"` at creation, then the single terminal
update), the final stats, the resulting store, the run error list, the
fetch `$filter` parameters and the number of fetches attempted. -/
structure RunResult where
  sync_type : String
  log : List String
  stats : SyncStats
  db : LocalDB
  runErrors : List ErrEntry
  filters : List (Option String)
  fetches : Nat

/-- Shared tail of the three orchestration entry points: create the log in
Running state, construct the client (`AspireAPIError` caught to a Failed
log), run the entity syncs (an aborting fetch likewise caught to a Failed
log), otherwise finalize with Success when zero errors accumulated and
Partial otherwise.  The `Except` result mirrors that only `AspireAPIError`
is raisable here and every raise is caught: no error escapes to the caller. -/
def orchestrate (sync_type : String) (cfg : SiteConfig) (env : SyncEnv)
    (modified_since cutoff : Option Nat) (db : LocalDB) :
    Except AspireAPIError RunResult :=
  let log0 := ["Running"]
  let stats := SyncStats.init
  match AspireClient.init cfg with
  | .error e =>
    .ok ⟨sync_type, log0 ++ ["Failed"], { stats with errors := stats.errors + 1 }, db,
      [⟨"API", none, e.message⟩], [], 0⟩
  | .ok _client =>
    match run_entity_syncs env modified_since cutoff db stats with
    | (st, some e) =>
      .ok ⟨sync_type, log0 ++ ["Failed"], { st.stats with errors := st.stats.errors + 1 },
        st.db, st.errors ++ [⟨"API", none, e.message⟩], st.filters, st.fetches⟩
    | (st, none) =>
      let status := if st.stats.errors = 0 then "Success" else "Partial"
      .ok ⟨sync_type, log0 ++ [status], st.stats, st.db, st.errors, st.filters, st.fetches⟩

/-- Embedding of `full_sync`: no time bound. -/
def full_sync (cfg : SiteConfig) (env : SyncEnv) (db : LocalDB) :
    Except AspireAPIError RunResult :=
  orchestrate "Full" cfg env none none db

/-- Embedding of `incremental_sync`: the modified-since bound is
`get_last_sync_date()` over all entity scopes. -/
def incremental_sync (cfg : SiteConfig) (env : SyncEnv) (db : LocalDB) :
    Except AspireAPIError RunResult :=
  orchestrate "Incremental" cfg env (get_last_sync_date env.logs "All") none db

/-- Embedding of `resync_since`: an explicit cutoff date bound. -/
def resync_since (cutoff : Nat) (cfg : SiteConfig) (env : SyncEnv) (db : LocalDB) :
    Except AspireAPIError RunResult :=
  orchestrate "Manual" cfg env none (some cutoff) db

/- ===================== concrete example values ===================== -/

/-- A configuration with the base URL absent. -/
def missingUrlConfig : SiteConfig := ⟨none, some "client-1", some "key-1"⟩

/-- A fully-populated configuration. -/
def goodConfig : SiteConfig := ⟨some "https://api.example", some "client-1", some "key-1"⟩

/-- An environment in which every fetch answers the empty collection and no
record persistence ever fails. -/
def quietEnv : SyncEnv :=
  ⟨0, [], .ok [], .ok [], .ok [], .ok [], .ok [],
    fun _ => none, fun _ => none, fun _ => none, fun _ => none, fun _ => none⟩

/-- The empty local store. -/
def emptyDB : LocalDB := ⟨[], [], [], [], []⟩

/-- An environment whose companies fetch raises `AspireAPIError`. -/
def failingEnv : SyncEnv :=
  ⟨0, [], .error ⟨"connection refused"⟩, .ok [], .ok [], .ok [], .ok [],
    fun _ => none, fun _ => none, fun _ => none, fun _ => none, fun _ => none⟩

/-- An opportunity record with every field null. -/
def nullOpportunity : AspireOpportunity :=
  ⟨none, none, none, none, none, none, none, none, none, none, none, none, none, none⟩

/- ===================== supporting lemmas ===================== -/

theorem isPySpace_not_digit {c : Char} (h : isPySpace c = true) : c.isDigit = false := by
  simp only [isPySpace, Bool.or_eq_true, beq_iff_eq] at h
  rcases h with ((((h | h) | h) | h) | h) | h <;> subst h <;> decide

theorem digitCount_cons (c : Char) (t : List Char) :
    digitCount (c :: t) = (if c.isDigit then 1 else 0) + digitCount t := by
  simp only [digitCount, List.filter_cons]
  split <;> simp [Nat.add_comm]

theorem digitCount_nil : digitCount [] = 0 := rfl

theorem digitCount_dropWhile_space (l : List Char) :
    digitCount (l.dropWhile isPySpace) = digitCount l := by
  induction l with
  | nil => rfl
  | cons c rest ih =>
    by_cases h : isPySpace c
    · rw [List.dropWhile_cons_of_pos h, ih, digitCount_cons,
        if_neg (by simp [isPySpace_not_digit h])]
      omega
    · rw [List.dropWhile_cons_of_neg (by simp [h])]

theorem digitCount_dropTrailing (l : List Char) :
    digitCount (dropTrailing l) = digitCount l := by
  induction l with
  | nil => rfl
  | cons c rest ih =>
    simp only [dropTrailing]
    split_ifs with he hs
    · have hz : digitCount rest = 0 := by
        rw [← ih, List.isEmpty_iff.mp he, digitCount_nil]
      have hd : c.isDigit = false := isPySpace_not_digit hs
      simp [digitCount_nil, digitCount_cons, hz, hd]
    · have hz : digitCount rest = 0 := by
        rw [← ih, List.isEmpty_iff.mp he, digitCount_nil]
      simp [digitCount_nil, digitCount_cons, hz]
    · simp [digitCount_cons, ih]

theorem mem_dropTrailing {c : Char} {l : List Char} (h : c ∈ dropTrailing l) : c ∈ l := by
  induction l with
  | nil => simp [dropTrailing] at h
  | cons a rest ih =>
    simp only [dropTrailing] at h
    split_ifs at h with he hs
    · simp at h
    · simp only [List.mem_singleton] at h
      simp [h]
    · rcases List.mem_cons.mp h with h | h
      · simp [h]
      · exact List.mem_cons_of_mem _ (ih h)

theorem mem_dropWhile {c : Char} {p : Char → Bool} {l : List Char}
    (h : c ∈ l.dropWhile p) : c ∈ l := by
  induction l with
  | nil => simp [List.dropWhile] at h
  | cons a rest ih =>
    by_cases hp : p a
    · rw [List.dropWhile_cons_of_pos hp] at h
      exact List.mem_cons_of_mem _ (ih h)
    · rw [List.dropWhile_cons_of_neg (by simp [hp])] at h
      exact h

theorem head?_dropWhile {p : Char → Bool} {l : List Char} {c : Char}
    (h : (l.dropWhile p).head? = some c) : p c = false := by
  induction l with
  | nil => simp [List.dropWhile] at h
  | cons a rest ih =>
    by_cases hp : p a
    · rw [List.dropWhile_cons_of_pos hp] at h
      exact ih h
    · rw [List.dropWhile_cons_of_neg (by simp [hp])] at h
      simp only [List.head?_cons, Option.some_inj] at h
      subst h
      simp [hp]

theorem head?_dropTrailing {l : List Char} {c : Char}
    (h : (dropTrailing l).head? = some c) : l.head? = some c := by
  induction l with
  | nil => simp [dropTrailing] at h
  | cons a rest _ih =>
    simp only [dropTrailing] at h
    split_ifs at h with he hs
    · simp at h
    · simp only [List.head?_cons, Option.some_inj] at h
      simp [h]
    · simp only [List.head?_cons, Option.some_inj] at h
      simp [h]

theorem getLast?_dropTrailing {l : List Char} {c : Char}
    (h : (dropTrailing l).getLast? = some c) : isPySpace c = false := by
  induction l with
  | nil => simp [dropTrailing] at h
  | cons a rest ih =>
    simp only [dropTrailing] at h
    split_ifs at h with he hs
    · simp at h
    · simp only [List.getLast?_singleton, Option.some_inj] at h
      rw [← h]
      simp [hs]
    · rcases hl : dropTrailing rest with _ | ⟨b, r⟩
      · rw [hl] at he; simp at he
      · rw [hl, List.getLast?_cons_cons] at h
        exact ih (by rw [hl]; exact h)

theorem head?_pyStrip {l : List Char} {c : Char}
    (h : (pyStrip l).head? = some c) : isPySpace c = false :=
  head?_dropWhile (head?_dropTrailing h)

theorem getLast?_pyStrip {l : List Char} {c : Char}
    (h : (pyStrip l).getLast? = some c) : isPySpace c = false :=
  getLast?_dropTrailing h

theorem mem_pyStrip {c : Char} {l : List Char} (h : c ∈ pyStrip l) : c ∈ l :=
  mem_dropWhile (mem_dropTrailing h)

theorem digitCount_pyStrip (l : List Char) : digitCount (pyStrip l) = digitCount l := by
  rw [pyStrip, digitCount_dropTrailing, digitCount_dropWhile_space]

/- ===================== claim theorems ===================== -/

/-- C1: in both `transform_opportunity` and `transform_to_aspire_contract`,
the status is mapped by substring on the external `OpportunityStatusName`
(absent mapped to `""`): containing "Won" maps to the local won value
("Converted" for `Opportunity`, "Won" for `Aspire Contract`), containing
"Lost" but not "Won" maps to "Lost", and everything else (including the
empty/missing status) maps to "Open". -/
theorem opportunity_status_substring_mapping (now : Nat) (o : AspireOpportunity)
    (customer_name service_property_name company_name property_name : Option String) :
    ((transform_opportunity now o customer_name service_property_name).status = "Converted" ↔
      containsStr "Won" (o.OpportunityStatusName.getD "") = true) ∧
    ((transform_opportunity now o customer_name service_property_name).status = "Lost" ↔
      (containsStr "Won" (o.OpportunityStatusName.getD "") = false ∧
        containsStr "Lost" (o.OpportunityStatusName.getD "") = true)) ∧
    ((transform_opportunity now o customer_name service_property_name).status = "Open" ↔
      (containsStr "Won" (o.OpportunityStatusName.getD "") = false ∧
        containsStr "Lost" (o.OpportunityStatusName.getD "") = false)) ∧
    ((transform_to_aspire_contract now o company_name property_name).contract_status = "Won" ↔
      containsStr "Won" (o.OpportunityStatusName.getD "") = true) ∧
    ((transform_to_aspire_contract now o company_name property_name).contract_status = "Lost" ↔
      (containsStr "Won" (o.OpportunityStatusName.getD "") = false ∧
        containsStr "Lost" (o.OpportunityStatusName.getD "") = true)) ∧
    ((transform_to_aspire_contract now o company_name property_name).contract_status = "Open" ↔
      (containsStr "Won" (o.OpportunityStatusName.getD "") = false ∧
        containsStr "Lost" (o.OpportunityStatusName.getD "") = false)) := by
  simp only [transform_opportunity, transform_to_aspire_contract]
  by_cases h1 : containsStr "Won" (o.OpportunityStatusName.getD "") <;>
    by_cases h2 : containsStr "Lost" (o.OpportunityStatusName.getD "") <;>
      simp [h1, h2]

/-- C7: `clean_phone` maps `"902-579-3084 ext 123"` to `"902-579-3084"` and
`"1-952-947-0007 E"` to `"1-952-947-0007"`, and on every input whose
stripped-and-filtered form retains fewer than 7 digits it returns `none`. -/
theorem clean_phone_examples_and_min_digits :
    clean_phone "902-579-3084 ext 123" = some "902-579-3084" ∧
    clean_phone "1-952-947-0007 E" = some "1-952-947-0007" ∧
    ∀ s : String,
      digitCount ((pyStrip (beforeExtMarker s.toList)).filter isPhoneChar) < 7 →
      clean_phone s = none := by
  refine ⟨by decide, by decide, ?_⟩
  intro s h
  simp only [clean_phone]
  split
  · rfl
  · rw [if_neg (by omega)]

/-- Witness for C7 at the concrete input `"12-34"` (only 4 digits remain). -/
theorem clean_phone_examples_and_min_digits_witness :
    digitCount ((pyStrip (beforeExtMarker ("12-34" : String).toList)).filter isPhoneChar) < 7 ∧
    clean_phone "12-34" = none :=
  ⟨by decide, clean_phone_examples_and_min_digits.2.2 "12-34" (by decide)⟩

/-- C9: every non-null `clean_phone` result has at least 7 digit characters,
consists only of digits and `+`, `-`, `(`, `)`, space, and has no leading
or trailing whitespace. -/
theorem clean_phone_result_wellformed (s r : String) (h : clean_phone s = some r) :
    7 ≤ digitCount r.toList ∧
    (∀ c ∈ r.toList, isPhoneChar c = true) ∧
    (∀ c, r.toList.head? = some c → isPySpace c = false) ∧
    (∀ c, r.toList.getLast? = some c → isPySpace c = false) := by
  simp only [clean_phone] at h
  split at h
  · exact absurd h (by simp)
  · split at h
    · rename_i hcnt
      rw [Option.some_inj] at h
      have hr : r.toList = pyStrip ((pyStrip (beforeExtMarker s.toList)).filter isPhoneChar) := by
        rw [← h]
        rfl
      refine ⟨?_, ?_, ?_, ?_⟩
      · rw [hr, digitCount_pyStrip]
        exact hcnt
      · intro c hc
        rw [hr] at hc
        exact List.of_mem_filter (mem_pyStrip hc)
      · intro c hc
        rw [hr] at hc
        exact head?_pyStrip hc
      · intro c hc
        rw [hr] at hc
        exact getLast?_pyStrip hc
    · exact absurd h (by simp)

/-- Witness for C9 at the concrete input `"902-579-3084 ext 123"`. -/
theorem clean_phone_result_wellformed_witness :
    clean_phone "902-579-3084 ext 123" = some "902-579-3084" ∧
    7 ≤ digitCount ("902-579-3084" : String).toList :=
  ⟨by decide,
    (clean_phone_result_wellformed "902-579-3084 ext 123" "902-579-3084" (by decide)).1⟩

/-- C8: `parse_date` maps `"2024-01-15T00:00:00Z"` to the date 2024-01-15;
empty, null, non-string and unparseable inputs yield `none` (the embedding
is total: no exception escapes); and every non-null `parse_datetime` result
is naive (no timezone) with microseconds dropped. -/
theorem parse_date_datetime_safety :
    parse_date (.vstr "2024-01-15T00:00:00Z") = some ⟨2024, 1, 15⟩ ∧
    parse_date (.vstr "") = none ∧
    parse_date .vnone = none ∧
    parse_date .vother = none ∧
    (∀ s : String, fromisoformat (replaceZ s) = none → parse_date (.vstr s) = none) ∧
    (∀ v dt, parse_datetime v = some dt →
      dt.tzOffsetMinutes = none ∧ dt.microsecond = 0) := by
  refine ⟨by decide, by decide, rfl, rfl, ?_, ?_⟩
  · intro s hs
    simp only [parse_date]
    split
    · rfl
    · rw [hs]; rfl
  · intro v dt h
    cases v with
    | vnone => exact absurd h (by simp [parse_datetime])
    | vother => exact absurd h (by simp [parse_datetime])
    | vstr s =>
      simp only [parse_datetime] at h
      split at h
      · exact absurd h (by simp)
      · rcases Option.map_eq_some'.mp h with ⟨dt0, _, hdt⟩
        constructor
        · rw [← hdt]
        · rw [← hdt]

/-- Witness for C8: the unparseable string `"garbage"` yields `none`, and a
concrete timezone-carrying input yields a naive result. -/
theorem parse_date_datetime_safety_witness :
    fromisoformat (replaceZ "garbage") = none ∧
    parse_date (.vstr "garbage") = none ∧
    parse_datetime (.vstr "2024-01-15T10:20:30.5+03:00") =
      some ⟨2024, 1, 15, 10, 20, 30, 0, none⟩ ∧
    (⟨2024, 1, 15, 10, 20, 30, 0, none⟩ : PyDatetime).tzOffsetMinutes = none :=
  ⟨by decide, parse_date_datetime_safety.2.2.2.2.1 "garbage" (by decide), by decide,
    (parse_date_datetime_safety.2.2.2.2.2 (.vstr "2024-01-15T10:20:30.5+03:00")
      ⟨2024, 1, 15, 10, 20, 30, 0, none⟩ (by decide)).1⟩

theorem fetch_pages_iter_spec (remote : List Nat) :
    ∀ (fuel skip : Nat), (remote.length - skip) / 100 < fuel →
    fetch_pages_iter remote fuel skip =
      (remote.drop skip,
       (List.range ((remote.length - skip) / 100 + 1)).map (fun i => (100, skip + 100 * i)),
       (remote.length - skip) / 100) := by
  intro fuel
  induction fuel with
  | zero => intro skip h; omega
  | succ fuel ih =>
    intro skip _hfuel
    have hl : ((remote.drop skip).take 100).length = min 100 (remote.length - skip) := by
      simp
    simp only [fetch_pages_iter]
    split_ifs with h0 hlt
    · rw [hl] at h0
      have hd : remote.drop skip = [] := List.drop_eq_nil_of_le (by omega)
      have h00 : remote.length - skip = 0 := by omega
      rw [h00, hd]
      have hr1 : List.range 1 = [0] := rfl
      simp [hr1]
    · rw [hl] at h0 hlt
      have hsmall : remote.length - skip < 100 := by omega
      have ht : (remote.drop skip).take 100 = remote.drop skip :=
        List.take_of_length_le (by simp; omega)
      have hdiv : (remote.length - skip) / 100 = 0 := Nat.div_eq_of_lt hsmall
      rw [ht, hdiv]
      have hr1 : List.range 1 = [0] := rfl
      simp [hr1]
    · rw [hl] at h0 hlt
      have h100 : 100 ≤ remote.length - skip := by omega
      have hdiv : (remote.length - skip) / 100 = (remote.length - (skip + 100)) / 100 + 1 := by
        have h1 : remote.length - skip = (remote.length - (skip + 100)) + 100 := by omega
        rw [h1, Nat.add_div_right _ (by norm_num)]
      have hrw := ih (skip + 100) (by omega)
      rw [hrw]
      simp only [Prod.mk.injEq]
      refine ⟨?_, ?_, by omega⟩
      · have hdr : remote.drop (skip + 100) = (remote.drop skip).drop 100 :=
          (List.drop_drop 100 skip remote).symm
        rw [hdr, List.take_append_drop]
      · rw [hdiv]
        conv_rhs => rw [List.range_succ_eq_map, List.map_cons, List.map_map]
        congr 1
        · simp
          intro a _
          omega

/-- C4: `_fetch_all_pages` requests pages sequentially with `$top = 100` and
`$skip` increasing by 100 from 0, accumulates every record, stops after the
first page strictly shorter than 100 (an empty page also terminates), and
sleeps only between consecutive page fetches (one fewer sleep than
requests); in particular a 237-record collection (pages of 100, 100, 37)
yields exactly the 3 requests `(100, 0), (100, 100), (100, 200)`, 237
accumulated records, and 2 delays. -/
theorem pagination_top_skip_termination :
    (∀ remote : List Nat,
      fetch_all_pages remote =
        (remote,
         (List.range (remote.length / 100 + 1)).map (fun i => (100, 100 * i)),
         remote.length / 100)) ∧
    (fetch_all_pages (List.replicate 237 0)).2.1 = [(100, 0), (100, 100), (100, 200)] ∧
    (fetch_all_pages (List.replicate 237 0)).1.length = 237 ∧
    (fetch_all_pages (List.replicate 237 0)).2.2 = 2 := by
  have hgen : ∀ remote : List Nat,
      fetch_all_pages remote =
        (remote,
         (List.range (remote.length / 100 + 1)).map (fun i => (100, 100 * i)),
         remote.length / 100) := by
    intro remote
    have h := fetch_pages_iter_spec remote (remote.length / 100 + 1) 0 (by omega)
    rw [fetch_all_pages, h]
    simp
  refine ⟨hgen, ?_, ?_, ?_⟩
  · rw [hgen]
    decide
  · rw [hgen]
    decide
  · rw [hgen]
    decide

/-- C3: a contract/opportunity record whose (billing) company external ID
resolves to no local company in the foreign-key map is skipped entirely —
the per-record step returns its accumulator unchanged (no document created
or updated, no created/updated/errors increment, no error entry), and the
record loop continues identically with the remaining records — in both
`sync_opportunities` and `sync_aspire_contracts`. -/
theorem unresolved_company_skips_record
    (now : Nat) (persistO persistC : AspireOpportunity → Option String)
    (customers : List CustomerDoc) (companies : List AspireCompanyDoc)
    (props : List ServicePropertyDoc)
    (accO : List OpportunityDoc × SyncStats × List ErrEntry)
    (accC : List AspireContractDoc × SyncStats × List ErrEntry)
    (opp : AspireOpportunity) (rest : List AspireOpportunity)
    (hO : (pyOrN opp.BillingCompanyID opp.CompanyID).bind (buildCompanyMap customers) = none)
    (hC : (pyOrN opp.BillingCompanyID opp.CompanyID).bind
      (buildAspireCompanyMap companies) = none) :
    sync_opportunities_step now persistO customers props accO opp = accO ∧
    (opp :: rest).foldl (sync_opportunities_step now persistO customers props) accO =
      rest.foldl (sync_opportunities_step now persistO customers props) accO ∧
    sync_aspire_contracts_step now persistC companies props accC opp = accC ∧
    (opp :: rest).foldl (sync_aspire_contracts_step now persistC companies props) accC =
      rest.foldl (sync_aspire_contracts_step now persistC companies props) accC := by
  obtain ⟨dbO, statsO, errsO⟩ := accO
  obtain ⟨dbC, statsC, errsC⟩ := accC
  have h1 : sync_opportunities_step now persistO customers props (dbO, statsO, errsO) opp =
      (dbO, statsO, errsO) := by
    simp [sync_opportunities_step, hO, pyFalsyS]
  have h2 : sync_aspire_contracts_step now persistC companies props (dbC, statsC, errsC) opp =
      (dbC, statsC, errsC) := by
    simp [sync_aspire_contracts_step, hC, pyFalsyS]
  refine ⟨h1, ?_, h2, ?_⟩
  · rw [List.foldl_cons, h1]
  · rw [List.foldl_cons, h2]

/-- Witness for C3: a record with null company IDs is skipped by both steps. -/
theorem unresolved_company_skips_record_witness :
    sync_opportunities_step 0 (fun _ => none) [] []
        (([], ⟨0, 0, 0, 0⟩, []) : List OpportunityDoc × SyncStats × List ErrEntry)
        nullOpportunity = ([], ⟨0, 0, 0, 0⟩, []) ∧
    sync_aspire_contracts_step 0 (fun _ => none) [] []
        (([], ⟨0, 0, 0, 0⟩, []) : List AspireContractDoc × SyncStats × List ErrEntry)
        nullOpportunity = ([], ⟨0, 0, 0, 0⟩, []) :=
  ⟨(unresolved_company_skips_record 0 (fun _ => none) (fun _ => none) [] [] []
      ([], ⟨0, 0, 0, 0⟩, []) ([], ⟨0, 0, 0, 0⟩, []) nullOpportunity [] rfl rfl).1,
   (unresolved_company_skips_record 0 (fun _ => none) (fun _ => none) [] [] []
      ([], ⟨0, 0, 0, 0⟩, []) ([], ⟨0, 0, 0, 0⟩, []) nullOpportunity [] rfl rfl).2.2.1⟩

/-- C10: when a contact already exists locally (matched by external contact
ID) and its save raises no exception, the update path replaces exactly the
`first_name`, `last_name`, `status` and `custom_last_aspire_sync` fields of
that document; `update_contact_fields` leaves the email and phone child
tables, the links, the name and the external ID of the existing document
unchanged. -/
theorem contact_update_frame
    (now : Nat) (persist : AspireContact → Option String)
    (customers : List CustomerDoc) (db : List ContactDoc) (stats : SyncStats)
    (errs : List ErrEntry) (contact : AspireContact) (doc : ContactDoc)
    (hfound : db.find? (fun d => d.custom_aspire_contact_id == contact.ContactID) = some doc)
    (hok : persist contact = none) :
    sync_contacts_step now persist customers (db, stats, errs) contact =
      (db.map (fun d =>
        if d.name = doc.name then
          update_contact_fields d (transform_contact now contact
            (contact.CompanyID.bind (buildCompanyMap customers)))
        else d),
       { stats with updated := stats.updated + 1 }, errs) ∧
    ∀ (d : ContactDoc) (cd : ContactData),
      (update_contact_fields d cd).email_ids = d.email_ids ∧
      (update_contact_fields d cd).phone_nos = d.phone_nos ∧
      (update_contact_fields d cd).links = d.links ∧
      (update_contact_fields d cd).name = d.name ∧
      (update_contact_fields d cd).custom_aspire_contact_id = d.custom_aspire_contact_id ∧
      (update_contact_fields d cd).first_name = cd.first_name ∧
      (update_contact_fields d cd).last_name = cd.last_name ∧
      (update_contact_fields d cd).status = cd.status ∧
      (update_contact_fields d cd).custom_last_aspire_sync = cd.custom_last_aspire_sync := by
  constructor
  · simp [sync_contacts_step, hok, hfound]
  · intro d cd
    simp [update_contact_fields]

/-- Witness for C10 at a concrete existing contact with a non-empty email
child table: the update keeps the child table. -/
theorem contact_update_frame_witness :
    (update_contact_fields ⟨"CONT-0", "X", "Y", "Open", some 1, 0, [⟨"a@b.c", 1⟩], [], []⟩
        (transform_contact 5 ⟨some 1, none, some "A", some "B", none, none, none, some true⟩
          none)).email_ids = [⟨"a@b.c", 1⟩] :=
  ((contact_update_frame 5 (fun _ => none) []
      [⟨"CONT-0", "X", "Y", "Open", some 1, 0, [⟨"a@b.c", 1⟩], [], []⟩] ⟨0, 0, 0, 0⟩ []
      ⟨some 1, none, some "A", some "B", none, none, none, some true⟩
      ⟨"CONT-0", "X", "Y", "Open", some 1, 0, [⟨"a@b.c", 1⟩], [], []⟩
      (by decide) rfl).2
    ⟨"CONT-0", "X", "Y", "Open", some 1, 0, [⟨"a@b.c", 1⟩], [], []⟩
    (transform_contact 5 ⟨some 1, none, some "A", some "B", none, none, none, some true⟩
      none)).1

theorem sync_log_fold_le (entity_type : String) :
    ∀ (logs : List SyncLogRow) (acc : Option Nat) (t : Nat),
      logs.foldl (sync_log_fold_step entity_type) acc = some t →
      (∀ l ∈ logs,
        l.status = "Success" ∧ (entity_type = "All" ∨ l.entity_type = entity_type) →
        l.completed_at ≤ t) ∧
      (∀ a, acc = some a → a ≤ t) := by
  intro logs
  induction logs with
  | nil =>
    intro acc t h
    simp only [List.foldl_nil] at h
    exact ⟨by simp, fun a ha => by rw [ha] at h; injection h with h; omega⟩
  | cons l ls ih =>
    intro acc t h
    rw [List.foldl_cons] at h
    obtain ⟨hls, hacc⟩ := ih (sync_log_fold_step entity_type acc l) t h
    have hcondtrue : l.status = "Success" ∧ (entity_type = "All" ∨ l.entity_type = entity_type) →
        (l.status == "Success" && (entity_type == "All" || l.entity_type == entity_type)) = true := by
      intro hc
      simp [hc.1]
      rcases hc.2 with hc2 | hc2 <;> simp [hc2]
    constructor
    · intro l' hl' hcond
      rcases List.mem_cons.mp hl' with rfl | hmem
      · cases hac : acc with
        | none =>
          have := hacc l'.completed_at
          apply this
          simp [sync_log_fold_step, hcondtrue hcond, hac]
        | some a =>
          have := hacc (max a l'.completed_at)
          have hle := this (by simp [sync_log_fold_step, hcondtrue hcond, hac])
          omega
      · exact hls l' hmem hcond
    · intro a ha
      by_cases hcond :
          (l.status == "Success" && (entity_type == "All" || l.entity_type == entity_type)) = true
      · have hle := hacc (max a l.completed_at)
          (by simp [sync_log_fold_step, hcond, ha])
        omega
      · exact hacc a (by simp [sync_log_fold_step, hcond, ha])

theorem sync_log_fold_mem (entity_type : String) :
    ∀ (logs : List SyncLogRow) (acc : Option Nat) (t : Nat),
      logs.foldl (sync_log_fold_step entity_type) acc = some t →
      (∃ l ∈ logs,
        l.status = "Success" ∧ (entity_type = "All" ∨ l.entity_type = entity_type) ∧
        l.completed_at = t) ∨ acc = some t := by
  intro logs
  induction logs with
  | nil =>
    intro acc t h
    simp only [List.foldl_nil] at h
    exact Or.inr h
  | cons l ls ih =>
    intro acc t h
    rw [List.foldl_cons] at h
    rcases ih (sync_log_fold_step entity_type acc l) t h with ⟨l', hmem, hrest⟩ | hstep
    · exact Or.inl ⟨l', List.mem_cons_of_mem _ hmem, hrest⟩
    · by_cases hcond :
          (l.status == "Success" && (entity_type == "All" || l.entity_type == entity_type)) = true
      · have hc : l.status = "Success" ∧ (entity_type = "All" ∨ l.entity_type = entity_type) := by
          simpa [Bool.and_eq_true, Bool.or_eq_true, beq_iff_eq] using hcond
        cases hac : acc with
        | none =>
          rw [hac] at hstep
          simp only [sync_log_fold_step, if_pos hcond, Option.some_inj] at hstep
          exact Or.inl ⟨l, List.mem_cons_self _ _, hc.1, hc.2, hstep⟩
        | some a =>
          rw [hac] at hstep
          simp only [sync_log_fold_step, if_pos hcond, Option.some_inj] at hstep
          rcases Nat.le_total a l.completed_at with hle | hle
          · refine Or.inl ⟨l, List.mem_cons_self _ _, hc.1, hc.2, ?_⟩
            omega
          · have hat : a = t := by omega
            refine Or.inr ?_
            simp only [hac, hat]
      · simp only [sync_log_fold_step, if_neg hcond] at hstep
        exact Or.inr hstep

theorem run_entity_syncs_abort_iff (env : SyncEnv) (ms cutoff : Option Nat) (db : LocalDB)
    (stats : SyncStats) :
    (run_entity_syncs env ms cutoff db stats).2.isSome = anyFetchFails env := by
  obtain ⟨now, logs, cd, pd, ctd, od, wd, p1, p2, p3, p4, p5⟩ := env
  cases cd <;> cases pd <;> cases ctd <;> cases od <;> cases wd <;>
    simp [run_entity_syncs, anyFetchFails, raises]

theorem orchestrate_never_raises (sync_type : String) (cfg : SiteConfig) (env : SyncEnv)
    (ms cutoff : Option Nat) (db : LocalDB) :
    ∃ r, orchestrate sync_type cfg env ms cutoff db = Except.ok r := by
  unfold orchestrate
  cases AspireClient.init cfg with
  | error e => exact ⟨_, rfl⟩
  | ok c =>
    rcases hrun : run_entity_syncs env ms cutoff db SyncStats.init with ⟨st, oe⟩
    cases oe <;> simp [hrun]

theorem orchestrate_sync_type_only_labels (s1 s2 : String) (cfg : SiteConfig) (env : SyncEnv)
    (ms cutoff : Option Nat) (db : LocalDB) :
    orchestrate s1 cfg env ms cutoff db =
      (orchestrate s2 cfg env ms cutoff db).map (fun r => { r with sync_type := s1 }) := by
  unfold orchestrate
  cases AspireClient.init cfg with
  | error e => rfl
  | ok c =>
    rcases hrun : run_entity_syncs env ms cutoff db SyncStats.init with ⟨st, oe⟩
    cases oe <;> simp [hrun, Except.map]

/-- C5: the incremental bound is the completion timestamp of the most recent
Success log across all entity scopes; with a bound present, every entity
filter appends the strictly-greater `" gt "` clause on the modified
timestamp to the fixed clauses of the entity; and with no prior Success log the
bound is absent and `incremental_sync` performs exactly the fetches of
`full_sync` (same filters, stats, store and log; only the run label
differs). -/
theorem incremental_sync_bound_and_filters :
    (∀ (logs : List SyncLogRow) (t : Nat), get_last_sync_date logs "All" = some t →
      (∃ l ∈ logs, l.status = "Success" ∧ l.completed_at = t) ∧
      ∀ l ∈ logs, l.status = "Success" → l.completed_at ≤ t) ∧
    (∀ (t now : Nat),
      companies_filter (some t) none = some ("ModifiedDateTime" ++ " gt " ++ tsStr t ++ "Z") ∧
      properties_filter (some t) none =
        some ("Active eq true" ++ " and " ++ ("ModifiedDate" ++ " gt " ++ tsStr t ++ "Z")) ∧
      contacts_filter (some t) none =
        some ("Email ne null and Active eq true" ++ " and " ++
          ("ModifiedDate" ++ " gt " ++ tsStr t ++ "Z")) ∧
      opportunities_filter (some t) none =
        some ("OpportunityType eq \x27Contract\x27 and OpportunityStatusName eq \x277. Won\x27" ++
          " and " ++ ("ModifiedDate" ++ " gt " ++ tsStr t ++ "Z")) ∧
      work_tickets_filter (some t) none now =
        some ("ScheduledStartDate ge " ++ ymdStr (now - 180) ++ " and " ++
          ("LastModifiedDateTime" ++ " gt " ++ tsStr t ++ "Z"))) ∧
    (∀ (cfg : SiteConfig) (env : SyncEnv) (db : LocalDB),
      get_last_sync_date env.logs "All" = none →
      ∃ rI rF, incremental_sync cfg env db = Except.ok rI ∧
        full_sync cfg env db = Except.ok rF ∧
        rI.filters = rF.filters ∧ rI.stats = rF.stats ∧ rI.db = rF.db ∧ rI.log = rF.log) := by
  refine ⟨?_, ?_, ?_⟩
  · intro logs t h
    have hmem := sync_log_fold_mem "All" logs none t h
    have hle := sync_log_fold_le "All" logs none t h
    constructor
    · rcases hmem with ⟨l, hl, hs, _, hc⟩ | hbad
      · exact ⟨l, hl, hs, hc⟩
      · exact absurd hbad (by simp)
    · intro l hl hs
      exact hle.1 l hl ⟨hs, Or.inl rfl⟩
  · intro t now
    exact ⟨rfl, rfl, rfl, rfl, rfl⟩
  · intro cfg env db hnone
    obtain ⟨rF, hF⟩ := orchestrate_never_raises "Full" cfg env none none db
    have hFull : full_sync cfg env db = Except.ok rF := hF
    have hI : incremental_sync cfg env db =
        Except.ok { rF with sync_type := "Incremental" } := by
      have h1 : incremental_sync cfg env db =
          (orchestrate "Full" cfg env none none db).map
            (fun r => { r with sync_type := "Incremental" }) := by
        rw [incremental_sync, hnone]
        exact orchestrate_sync_type_only_labels "Incremental" "Full" cfg env none none db
      rw [h1, hF]
      rfl
    exact ⟨{ rF with sync_type := "Incremental" }, rF, hI, hFull, rfl, rfl, rfl, rfl⟩

/-- Witness for C5: a concrete log table whose most recent Success
completion is 5, and a run pair over an environment with no Success log. -/
theorem incremental_sync_bound_and_filters_witness :
    ((∃ l ∈ ([⟨"Success", "All", 5⟩, ⟨"Failed", "All", 9⟩] : List SyncLogRow),
        l.status = "Success" ∧ l.completed_at = 5) ∧
      ∀ l ∈ ([⟨"Success", "All", 5⟩, ⟨"Failed", "All", 9⟩] : List SyncLogRow),
        l.status = "Success" → l.completed_at ≤ 5) ∧
    ∃ rI rF, incremental_sync goodConfig quietEnv emptyDB = Except.ok rI ∧
      full_sync goodConfig quietEnv emptyDB = Except.ok rF ∧
      rI.filters = rF.filters ∧ rI.stats = rF.stats ∧ rI.db = rF.db ∧ rI.log = rF.log :=
  ⟨incremental_sync_bound_and_filters.1 [⟨"Success", "All", 5⟩, ⟨"Failed", "All", 9⟩] 5
      (by decide),
   incremental_sync_bound_and_filters.2.2 goodConfig quietEnv emptyDB (by decide)⟩

theorem orchestrate_log_spec (sync_type : String) (cfg : SiteConfig) (env : SyncEnv)
    (ms cutoff : Option Nat) (db : LocalDB) :
    ∃ r t, orchestrate sync_type cfg env ms cutoff db = Except.ok r ∧
      r.log = ["Running", t] ∧
      (t = "Success" ∨ t = "Partial" ∨ t = "Failed") ∧
      ((credsMissing cfg || anyFetchFails env) = true → t = "Failed") ∧
      ((credsMissing cfg || anyFetchFails env) = false →
        ((t = "Success" ↔ r.stats.errors = 0) ∧ (t = "Partial" ↔ r.stats.errors ≠ 0))) := by
  by_cases hc : credsMissing cfg = true
  · have hinit : AspireClient.init cfg =
        .error ⟨"Aspire API credentials not configured. Set aspire_api_base_url, aspire_api_client_id, and aspire_api_key in site_config.json"⟩ := by
      simp [AspireClient.init, hc]
    have hres : orchestrate sync_type cfg env ms cutoff db = Except.ok
        ⟨sync_type, ["Running", "Failed"], ⟨0, 0, 0, 1⟩, db,
          [⟨"API", none, "Aspire API credentials not configured. Set aspire_api_base_url, aspire_api_client_id, and aspire_api_key in site_config.json"⟩],
          [], 0⟩ := by
      rw [orchestrate.eq_def, hinit]
      simp [SyncStats.init]
    refine ⟨_, "Failed", hres, rfl, Or.inr (Or.inr rfl), fun _ => rfl, ?_⟩
    intro hfalse
    rw [hc] at hfalse
    simp at hfalse
  · have hcf : credsMissing cfg = false := by
      simpa using hc
    have hinit : AspireClient.init cfg = .ok ⟨cfg.aspire_api_base_url.getD "",
        cfg.aspire_api_client_id.getD "", cfg.aspire_api_key.getD "", 100⟩ := by
      simp [AspireClient.init, hcf]
    have habort := run_entity_syncs_abort_iff env ms cutoff db SyncStats.init
    rcases hrun : run_entity_syncs env ms cutoff db SyncStats.init with ⟨st, oe⟩
    rw [hrun] at habort
    cases oe with
    | some e =>
      have hfails : anyFetchFails env = true := by
        simpa using habort.symm
      have hres : orchestrate sync_type cfg env ms cutoff db = Except.ok
          ⟨sync_type, ["Running", "Failed"],
            { st.stats with errors := st.stats.errors + 1 }, st.db,
            st.errors ++ [⟨"API", none, e.message⟩], st.filters, st.fetches⟩ := by
        rw [orchestrate.eq_def, hinit]
        simp [hrun]
      refine ⟨_, "Failed", hres, rfl, Or.inr (Or.inr rfl), fun _ => rfl, ?_⟩
      intro hfalse
      rw [hfails] at hfalse
      simp at hfalse
    | none =>
      have hfails : anyFetchFails env = false := by
        simpa using habort.symm
      by_cases he : st.stats.errors = 0
      · have hres : orchestrate sync_type cfg env ms cutoff db = Except.ok
            ⟨sync_type, ["Running", "Success"], st.stats, st.db, st.errors,
              st.filters, st.fetches⟩ := by
          rw [orchestrate.eq_def, hinit]
          simp [hrun, he]
        refine ⟨_, "Success", hres, rfl, Or.inl rfl, ?_, ?_⟩
        · intro htrue
          rw [hcf, hfails] at htrue
          simp at htrue
        · intro _
          exact ⟨⟨fun _ => he, fun _ => rfl⟩,
            ⟨fun hp => absurd hp (by decide), fun hp => absurd he hp⟩⟩
      · have hres : orchestrate sync_type cfg env ms cutoff db = Except.ok
            ⟨sync_type, ["Running", "Partial"], st.stats, st.db, st.errors,
              st.filters, st.fetches⟩ := by
          rw [orchestrate.eq_def, hinit]
          simp [hrun, he]
        refine ⟨_, "Partial", hres, rfl, Or.inr (Or.inl rfl), ?_, ?_⟩
        · intro htrue
          rw [hcf, hfails] at htrue
          simp at htrue
        · intro _
          exact ⟨⟨fun hp => absurd hp (by decide), fun hz => absurd hz he⟩,
            ⟨fun _ => he, fun _ => rfl⟩⟩

/-- C2: every orchestration run (full, incremental, resync) writes its sync
log as Running first and finalizes it with exactly one terminal status:
Failed when the run aborted (missing credentials or a raising fetch),
otherwise Success exactly when the accumulated per-record error counter is
zero and Partial exactly when it is non-zero. -/
theorem sync_run_log_lifecycle (cfg : SiteConfig) (env : SyncEnv) (db : LocalDB)
    (cutoff : Nat) :
    ∀ run ∈ [full_sync cfg env db, incremental_sync cfg env db,
      resync_since cutoff cfg env db],
      ∃ r t, run = Except.ok r ∧ r.log = ["Running", t] ∧
        (t = "Success" ∨ t = "Partial" ∨ t = "Failed") ∧
        ((credsMissing cfg || anyFetchFails env) = true → t = "Failed") ∧
        ((credsMissing cfg || anyFetchFails env) = false →
          ((t = "Success" ↔ r.stats.errors = 0) ∧ (t = "Partial" ↔ r.stats.errors ≠ 0))) := by
  intro run hrun
  rcases List.mem_cons.mp hrun with rfl | hrun
  · exact orchestrate_log_spec "Full" cfg env none none db
  rcases List.mem_cons.mp hrun with rfl | hrun
  · exact orchestrate_log_spec "Incremental" cfg env
      (get_last_sync_date env.logs "All") none db
  rcases List.mem_cons.mp hrun with rfl | hrun
  · exact orchestrate_log_spec "Manual" cfg env none (some cutoff) db
  · exact absurd hrun (by simp)

/-- Witness for C2: a run whose companies fetch raises finalizes its log
Running → Failed. -/
theorem sync_run_log_lifecycle_witness :
    ∃ r t, full_sync goodConfig failingEnv emptyDB = Except.ok r ∧
      r.log = ["Running", t] ∧ t = "Failed" := by
  obtain ⟨r, t, hok, hlog, _hterm, hfail, _hiff⟩ :=
    sync_run_log_lifecycle goodConfig failingEnv emptyDB 0
      (full_sync goodConfig failingEnv emptyDB) (by simp)
  exact ⟨r, t, hok, hlog, hfail (by decide)⟩

/-- C6 counterexample: with the base URL missing, the typed configuration
error raised by the client constructor does NOT surface to the caller of
`full_sync` — the run returns normally (`Except.ok`) with a completed run
result whose log was finalized Failed. -/
theorem config_error_caught_not_propagated :
    raises (full_sync missingUrlConfig quietEnv emptyDB) = false ∧
    ∃ r, full_sync missingUrlConfig quietEnv emptyDB = Except.ok r ∧
      r.log = ["Running", "Failed"] := by
  exact ⟨rfl, ⟨_, rfl, rfl⟩⟩

/-- C6 (amended): when any of the three configuration values is absent,
constructing the client raises the typed `AspireAPIError` before any
network call; the sync entry point `full_sync` catches it, attempts zero
fetches, finalizes the run log Running → Failed, and returns the run
result to its caller instead of propagating the error. -/
theorem config_error_failed_run (cfg : SiteConfig) (env : SyncEnv) (db : LocalDB)
    (h : credsMissing cfg = true) :
    (∃ err, AspireClient.init cfg = Except.error err) ∧
    ∃ r, full_sync cfg env db = Except.ok r ∧ r.log = ["Running", "Failed"] ∧
      r.fetches = 0 ∧ r.filters = [] := by
  have hinit : AspireClient.init cfg =
      .error ⟨"Aspire API credentials not configured. Set aspire_api_base_url, aspire_api_client_id, and aspire_api_key in site_config.json"⟩ := by
    simp [AspireClient.init, h]
  have hres : full_sync cfg env db = Except.ok
      ⟨"Full", ["Running", "Failed"], ⟨0, 0, 0, 1⟩, db,
        [⟨"API", none, "Aspire API credentials not configured. Set aspire_api_base_url, aspire_api_client_id, and aspire_api_key in site_config.json"⟩],
        [], 0⟩ := by
    rw [full_sync, orchestrate.eq_def, hinit]
    simp [SyncStats.init]
  exact ⟨⟨_, hinit⟩, _, hres, rfl, rfl, rfl⟩

/-- Witness for the amended C6 theorem at the concrete missing-URL config. -/
theorem config_error_failed_run_witness :
    credsMissing missingUrlConfig = true ∧
    ∃ r, full_sync missingUrlConfig quietEnv emptyDB = Except.ok r ∧
      r.log = ["Running", "Failed"] ∧ r.fetches = 0 ∧ r.filters = [] :=
  ⟨by decide,
    (config_error_failed_run missingUrlConfig quietEnv emptyDB (by decide)).2⟩
